import Mathlib

/-!
Build-information reporter (`settings.cpp`).

A shallow embedding of `src/build/generated-sources/settings.cpp`:

* `version_details` scans the argument vector with
  `std::string::compare(0, 3, "-vv")`;
* `print_build_info` issues a fixed sequence of `printf` calls.

A C++ `std::string` / C string is a `List Char`.  Standard output is an explicit
character sequence that every `printf` call extends.  The feature macros
(`ENABLE_*`, `WITH_*`) come from `settings.hpp`, which is not part of the
sources at hand; they are taken as a parameter (`Flags`).
-/

namespace Settings

/-- A `std::string` or NUL-terminated C string, as its sequence of characters. -/
abbrev Str := List Char

/-! ## Constants of `settings.cpp` -/

def APP_NAME : Str := "polybar".toList
def APP_VERSION : Str := "3.7.2-33-ga5dfcfb6-dev".toList
def WIRELESS_LIB : Str := "wireless-tools".toList

/-- The feature macros of `settings.hpp` that `print_build_info` reads; each is
used only as the condition of a `? '+' : '-'` expression. -/
structure Flags where
  ENABLE_ALSA : Bool
  ENABLE_CURL : Bool
  ENABLE_I3 : Bool
  ENABLE_MPD : Bool
  ENABLE_NETWORK : Bool
  ENABLE_PULSEAUDIO : Bool
  ENABLE_XKEYBOARD : Bool
  WITH_XRANDR : Bool
  WITH_XRANDR_MONITORS : Bool
  WITH_XCOMPOSITE : Bool
  WITH_XKB : Bool
  WITH_XRM : Bool
  WITH_XCURSOR : Bool
  deriving DecidableEq, Repr

/-! ## `std::string::compare` -/

/-- The exception `std::string::compare(pos, n, s)` throws when `pos > size()`. -/
inductive Exn where
  | out_of_range
  deriving DecidableEq, Repr

/-- Lexicographic comparison of two character ranges up to the shorter length,
as `std::char_traits<char>::compare` does it: negative, zero or positive. -/
def traits_compare : Str → Str → Int
  | a :: as, b :: bs =>
    if a.toNat < b.toNat then -1
    else if b.toNat < a.toNat then 1
    else traits_compare as bs
  | _, _ => 0

/-- The call `str.compare(pos, n, s)` of `std::string` with a C string `s`:
throws `out_of_range` when `pos > size()`; otherwise compares the substring
`[pos, pos + rlen)`, `rlen = min(n, size() - pos)`, with `s`: first the common
length by `traits_compare`, then the lengths. -/
def string_compare (str : Str) (pos n : Nat) (s : Str) : Except Exn Int :=
  if pos > str.length then .error .out_of_range
  else
    let rlen := min n (str.length - pos)
    let sub := (str.drop pos).take rlen
    let r := traits_compare (sub.take (min rlen s.length)) (s.take (min rlen s.length))
    if r ≠ 0 then .ok r
    else if rlen < s.length then .ok (-1)
    else if rlen > s.length then .ok 1
    else .ok 0

/-! ## `version_details` -/

/-- The loop of `version_details`: the first argument whose
`compare(0, 3, "-vv")` is `0` returns `true`; the end of the vector returns
`false`.  An exception of `compare` propagates. -/
def version_details : List Str → Except Exn Bool
  | [] => .ok false
  | arg :: args =>
    match string_compare arg 0 3 "-vv".toList with
    | .error e => .error e
    | .ok r => if r = 0 then .ok true else version_details args

/-! ## `printf` -/

/-- A variadic argument of `printf`: a character (for `%c`) or a C string
(for `%s`). -/
inductive Arg where
  | chr (c : Char)
  | str (s : Str)
  deriving DecidableEq, Repr

/-- The text `printf` produces for a format string and its arguments, for the
conversions this file uses (`%c`, `%s`, `%%`); `conv` tells whether the
previous character was an unconsumed `%`.  `none` stands for undefined
behaviour: a conversion without a matching argument, an unknown conversion, or
a format string that ends in a lone `%`. -/
def vformat : Bool → Str → List Arg → Option Str
  | false, [], _ => some []
  | true, [], _ => none
  | false, c :: fmt, args =>
    if c = '%' then vformat true fmt args
    else (vformat false fmt args).map (c :: ·)
  | true, c :: fmt, args =>
    if c = '%' then (vformat false fmt args).map ('%' :: ·)
    else if c = 'c' then
      match args with
      | .chr x :: rest => (vformat false fmt rest).map (x :: ·)
      | _ => none
    else if c = 's' then
      match args with
      | .str s :: rest => (vformat false fmt rest).map (s ++ ·)
      | _ => none
    else none

/-- The call `printf(fmt, args...)` on standard output `out`: the formatted text
is appended. -/
def printf (fmt : Str) (args : List Arg) (out : Str) : Option Str :=
  (vformat false fmt args).map (out ++ ·)

/-- The expression `(FLAG ? '+' : '-')`. -/
def mark (flag : Bool) : Char := if flag then '+' else '-'

/-! ## `print_build_info` -/

def FMT_HEADER : Str := "%s %s\n\n".toList
def FMT_FEATURES : Str :=
  "Features: %calsa %ccurl %ci3 %cmpd %cnetwork(%s) %cpulseaudio %cxkeyboard\n".toList
def FMT_NEWLINE : Str := "\n".toList
def FMT_XEXT : Str :=
  "X extensions: %crandr (%cmonitors) %ccomposite %cxkb %cxrm %cxcursor\n".toList
def FMT_BUILD_TYPE : Str := "Build type: Debug\n".toList
def FMT_COMPILER : Str := "Compiler: /usr/local/libexec/ccache/clang++\n".toList
def FMT_COMPILER_FLAGS : Str := "Compiler flags:  -g -Wall -Wextra -Wpedantic -Wdeprecated-copy-dtor -Wsuggest-override -D_WITH_DPRINTF -Wno-c99-extensions -Wno-error=parentheses-equality -Wno-zero-length-array -DDEBUG -g2 -Og\n".toList
def FMT_LINKER_FLAGS : Str := "Linker flags:  -L/usr/local/lib -Wall -Wextra -Wpedantic -Wdeprecated-copy-dtor -Wsuggest-override -D_WITH_DPRINTF -Wno-c99-extensions -Wno-error=parentheses-equality -Wno-zero-length-array -DDEBUG -g2 -Og  -L/usr/local/lib -Wall -Wextra -Wpedantic -Wdeprecated-copy-dtor -Wsuggest-override -D_WITH_DPRINTF -Wno-c99-extensions -Wno-error=parentheses-equality -Wno-zero-length-array -DDEBUG -g2 -Og\n".toList

/-- The body of `print_build_info(extended)`, statement by statement, on
standard output `out`. -/
def print_build_info (cfg : Flags) (extended : Bool) (out : Str) : Option Str := do
  let out ← printf FMT_HEADER [.str APP_NAME, .str APP_VERSION] out
  let out ← printf FMT_FEATURES
    [.chr (mark cfg.ENABLE_ALSA),
     .chr (mark cfg.ENABLE_CURL),
     .chr (mark cfg.ENABLE_I3),
     .chr (mark cfg.ENABLE_MPD),
     .chr (mark cfg.ENABLE_NETWORK),
     .str WIRELESS_LIB,
     .chr (mark cfg.ENABLE_PULSEAUDIO),
     .chr (mark cfg.ENABLE_XKEYBOARD)] out
  if extended then
    let out ← printf FMT_NEWLINE [] out
    let out ← printf FMT_XEXT
      [.chr (mark cfg.WITH_XRANDR),
       .chr (mark cfg.WITH_XRANDR_MONITORS),
       .chr (mark cfg.WITH_XCOMPOSITE),
       .chr (mark cfg.WITH_XKB),
       .chr (mark cfg.WITH_XRM),
       .chr (mark cfg.WITH_XCURSOR)] out
    let out ← printf FMT_NEWLINE [] out
    let out ← printf FMT_BUILD_TYPE [] out
    let out ← printf FMT_COMPILER [] out
    let out ← printf FMT_COMPILER_FLAGS [] out
    printf FMT_LINKER_FLAGS [] out
  else
    pure out

/-! ## Reading the output

The specification speaks about the report as text: its lines, and the expected
text of each line.  The definitions below state those expectations; they are
compared with `print_build_info` in the theorems. -/

/-- The lines of a text: maximal runs of characters other than the newline, each
ended by a newline (the last one possibly by the end of the text). -/
def lines : Str → List Str
  | [] => []
  | c :: rest =>
    if c = '\n' then [] :: lines rest
    else
      match lines rest with
      | [] => [[c]]
      | l :: ls => (c :: l) :: ls

/-- The identity line `<name> <version>`, without its newline. -/
def identity_line : Str := APP_NAME ++ " ".toList ++ APP_VERSION

/-- The expected Features line, without its newline: the seven entries in their
fixed order, each marker taken from the entry's own flag, the backend name in
parentheses after `network`. -/
def features_line (cfg : Flags) : Str :=
  "Features: ".toList ++ mark cfg.ENABLE_ALSA :: "alsa ".toList
    ++ mark cfg.ENABLE_CURL :: "curl ".toList
    ++ mark cfg.ENABLE_I3 :: "i3 ".toList
    ++ mark cfg.ENABLE_MPD :: "mpd ".toList
    ++ mark cfg.ENABLE_NETWORK :: "network(".toList ++ WIRELESS_LIB ++ ") ".toList
    ++ mark cfg.ENABLE_PULSEAUDIO :: "pulseaudio ".toList
    ++ mark cfg.ENABLE_XKEYBOARD :: "xkeyboard".toList

/-- The expected X extensions line, without its newline. -/
def xext_line (cfg : Flags) : Str :=
  "X extensions: ".toList ++ mark cfg.WITH_XRANDR :: "randr (".toList
    ++ mark cfg.WITH_XRANDR_MONITORS :: "monitors) ".toList
    ++ mark cfg.WITH_XCOMPOSITE :: "composite ".toList
    ++ mark cfg.WITH_XKB :: "xkb ".toList
    ++ mark cfg.WITH_XRM :: "xrm ".toList
    ++ mark cfg.WITH_XCURSOR :: "xcursor".toList

/-- The four build-environment lines, as the text of their format strings. -/
def build_env_text : Str :=
  FMT_BUILD_TYPE ++ FMT_COMPILER ++ FMT_COMPILER_FLAGS ++ FMT_LINKER_FLAGS

/-- The expected brief report. -/
def brief_report (cfg : Flags) : Str :=
  identity_line ++ "\n\n".toList ++ features_line cfg ++ "\n".toList

/-- The expected extended report. -/
def extended_report (cfg : Flags) : Str :=
  brief_report cfg ++ "\n".toList ++ xext_line cfg ++ "\n".toList ++ "\n".toList ++ build_env_text

/-- The expected report for either verbosity. -/
def report (cfg : Flags) (extended : Bool) : Str :=
  if extended then extended_report cfg else brief_report cfg

/-- A format string that `printf` writes as it stands: it has no `%`, so the
call reads none of its arguments (whatever they are, and with none at all) and
appends exactly the string; and the string has a single newline, at its end. -/
def written_verbatim (fmt : Str) : Prop :=
  '%' ∉ fmt ∧ (∀ (args : List Arg) (out : Str), printf fmt args out = some (out ++ fmt)) ∧
    (∀ out : Str, printf fmt [] out = some (out ++ fmt)) ∧
    fmt.count '\n' = 1 ∧ fmt.getLast? = some '\n'

/-- The text ends with four lines that begin `Build type: `, `Compiler: `,
`Compiler flags:  ` and `Linker flags:  `, in this order. -/
def ends_with_build_env (t : Str) : Bool :=
  match (lines t).reverse with
  | l4 :: l3 :: l2 :: l1 :: _ =>
    "Build type: ".toList.isPrefixOf l1 && "Compiler: ".toList.isPrefixOf l2 &&
      "Compiler flags:  ".toList.isPrefixOf l3 && "Linker flags:  ".toList.isPrefixOf l4
  | _ => false

/-- The number of lines of a text that begin with `p`. -/
def count_lines_starting (p t : Str) : Nat :=
  (lines t).countP p.isPrefixOf

/-- A sample registry: alsa, i3, mpd, xkeyboard on; curl, network, pulseaudio
off; randr off, randr-monitors on. -/
def cfg_sample : Flags :=
  { ENABLE_ALSA := true, ENABLE_CURL := false, ENABLE_I3 := true, ENABLE_MPD := true,
    ENABLE_NETWORK := false, ENABLE_PULSEAUDIO := false, ENABLE_XKEYBOARD := true,
    WITH_XRANDR := false, WITH_XRANDR_MONITORS := true, WITH_XCOMPOSITE := true,
    WITH_XKB := true, WITH_XRM := false, WITH_XCURSOR := true }

/-! ## Lemmas on `string_compare` and `version_details` -/

theorem char_toNat_eq {a b : Char} (h : a.toNat = b.toNat) : a = b := by
  rw [← Char.ofNat_toNat a, ← Char.ofNat_toNat b, h]

/-- On ranges of the same length `traits_compare` is `0` exactly for equal
ranges. -/
theorem traits_compare_eq_zero_iff :
    ∀ (a b : Str), a.length = b.length → (traits_compare a b = 0 ↔ a = b)
  | [], [], _ => by simp [traits_compare]
  | [], _ :: _, h => by simp at h
  | _ :: _, [], h => by simp at h
  | x :: a, y :: b, h => by
    have ih := traits_compare_eq_zero_iff a b (by simpa using h)
    unfold traits_compare
    by_cases h1 : x.toNat < y.toNat
    · have : x ≠ y := fun e => by subst e; exact lt_irrefl _ h1
      simp [h1, this]
    · by_cases h2 : y.toNat < x.toNat
      · have : x ≠ y := fun e => by subst e; exact lt_irrefl _ h2
        simp [h1, h2, this]
      · have e : x = y := char_toNat_eq (by omega)
        simp [h1, h2, ih, e]

/-- With start position `0` the comparison never throws. -/
theorem string_compare_zero_ok (str : Str) (n : Nat) (s : Str) :
    ∃ r, string_compare str 0 n s = .ok r := by
  unfold string_compare
  simp only [gt_iff_lt, Nat.not_lt_zero, if_false]
  split
  · exact ⟨_, rfl⟩
  · split
    · exact ⟨_, rfl⟩
    · split
      · exact ⟨_, rfl⟩
      · exact ⟨_, rfl⟩

/-- With start position `0` the comparison yields `0` exactly when the first `n`
characters of the string (all of it, when it is shorter) are the C string. -/
theorem string_compare_zero_eq_zero_iff (str : Str) (n : Nat) (s : Str) :
    string_compare str 0 n s = .ok 0 ↔ str.take n = s := by
  have hlen : (str.take n).length = min n str.length := List.length_take _ _
  have e3 : List.take (min n str.length) str = List.take n str := by
    rcases Nat.le_total n str.length with h | h
    · rw [Nat.min_eq_left h]
    · rw [Nat.min_eq_right h, List.take_of_length_le h, List.take_of_length_le le_rfl]
  unfold string_compare
  simp only [gt_iff_lt, Nat.not_lt_zero, if_false, List.drop_zero, Nat.sub_zero]
  rw [e3]
  by_cases hl : min n str.length = s.length
  · have hc := traits_compare_eq_zero_iff (str.take n) s (by omega)
    rw [hl, Nat.min_self, List.take_length, List.take_of_length_le (by omega)]
    simp only [lt_irrefl, gt_iff_lt, if_false]
    by_cases h0 : traits_compare (List.take n str) s = 0
    · simp only [h0, ne_eq, not_true, if_false, true_iff]
      exact hc.mp h0
    · have : List.take n str ≠ s := fun e => h0 (hc.mpr e)
      simp [h0, this]
  · have hne : List.take n str ≠ s := fun e => hl (by rw [← hlen, e])
    simp only [hne, iff_false]
    split
    · rename_i h0; intro h; injection h with h; exact h0 h
    · split
      · intro h; injection h with h; omega
      · split
        · intro h; injection h with h; omega
        · omega

/-- The test of the loop body: `arg.compare(0, 3, "-vv") == 0` holds exactly
when `arg` begins with the three characters `-vv`. -/
theorem compare_vv_eq_zero_iff (arg : Str) :
    string_compare arg 0 3 "-vv".toList = .ok 0 ↔ "-vv".toList <+: arg := by
  rw [string_compare_zero_eq_zero_iff, List.prefix_iff_eq_take]
  constructor
  · intro h; rw [← h]; simp
  · intro h; exact h.symm

/-- The loop returns the existence test. -/
theorem version_details_eq (args : List Str) :
    version_details args = .ok (decide (∃ a ∈ args, "-vv".toList <+: a)) := by
  induction args with
  | nil => simp [version_details]
  | cons arg args ih =>
    unfold version_details
    obtain ⟨r, hr⟩ := string_compare_zero_ok arg 3 "-vv".toList
    have hiff := compare_vv_eq_zero_iff arg
    rw [hr] at hiff ⊢
    by_cases h0 : r = 0
    · subst h0
      have hp := hiff.mp rfl
      have hex : ∃ a ∈ arg :: args, "-vv".toList <+: a := ⟨arg, List.mem_cons_self _ _, hp⟩
      dsimp only
      rw [if_pos rfl, decide_eq_true hex]
    · have hp : ¬ "-vv".toList <+: arg := fun h => h0 (by
        have := hiff.mpr h; injection this)
      simp only [h0, if_false, ih]
      congr 1
      apply Bool.decide_congr
      constructor
      · rintro ⟨a, ha, hpa⟩; exact ⟨a, List.mem_cons_of_mem _ ha, hpa⟩
      · rintro ⟨a, ha, hpa⟩
        rcases List.mem_cons.mp ha with e | ha
        · subst e; exact absurd hpa hp
        · exact ⟨a, ha, hpa⟩

/-! ## Lemmas on `printf` and `print_build_info` -/

theorem mark_ne_newline (b : Bool) : mark b ≠ '\n' := by cases b <;> decide

/-- A format string without `%` is written verbatim, whatever the arguments. -/
theorem vformat_plain : ∀ (fmt : Str) (args : List Arg), '%' ∉ fmt →
    vformat false fmt args = some fmt
  | [], _, _ => rfl
  | c :: fmt, args, h => by
    have hc : c ≠ '%' := fun e => h (by simp [e])
    have ht : '%' ∉ fmt := fun e => h (List.mem_cons_of_mem _ e)
    simp [vformat, hc, vformat_plain fmt args ht]

theorem printf_plain (fmt : Str) (args : List Arg) (out : Str) (h : '%' ∉ fmt) :
    printf fmt args out = some (out ++ fmt) := by
  simp [printf, vformat_plain fmt args h]

theorem printf_header (out : Str) :
    printf FMT_HEADER [.str APP_NAME, .str APP_VERSION] out
      = some (out ++ (identity_line ++ "\n\n".toList)) := by
  rfl

theorem printf_features (cfg : Flags) (out : Str) :
    printf FMT_FEATURES
      [.chr (mark cfg.ENABLE_ALSA),
       .chr (mark cfg.ENABLE_CURL),
       .chr (mark cfg.ENABLE_I3),
       .chr (mark cfg.ENABLE_MPD),
       .chr (mark cfg.ENABLE_NETWORK),
       .str WIRELESS_LIB,
       .chr (mark cfg.ENABLE_PULSEAUDIO),
       .chr (mark cfg.ENABLE_XKEYBOARD)] out
      = some (out ++ (features_line cfg ++ "\n".toList)) := by
  rfl

theorem printf_xext (cfg : Flags) (out : Str) :
    printf FMT_XEXT
      [.chr (mark cfg.WITH_XRANDR),
       .chr (mark cfg.WITH_XRANDR_MONITORS),
       .chr (mark cfg.WITH_XCOMPOSITE),
       .chr (mark cfg.WITH_XKB),
       .chr (mark cfg.WITH_XRM),
       .chr (mark cfg.WITH_XCURSOR)] out
      = some (out ++ (xext_line cfg ++ "\n".toList)) := by
  rfl

theorem printf_newline (out : Str) : printf FMT_NEWLINE [] out = some (out ++ "\n".toList) := by
  rfl

theorem no_percent_build_type : '%' ∉ FMT_BUILD_TYPE := by decide
theorem no_percent_compiler : '%' ∉ FMT_COMPILER := by decide
theorem no_percent_compiler_flags : '%' ∉ FMT_COMPILER_FLAGS := by decide
theorem no_percent_linker_flags : '%' ∉ FMT_LINKER_FLAGS := by decide

/-- The brief call appends the expected brief report. -/
theorem print_build_info_brief (cfg : Flags) (out : Str) :
    print_build_info cfg false out = some (out ++ brief_report cfg) := by
  simp only [print_build_info, printf_header, printf_features, Option.bind_eq_bind,
    Option.some_bind, Bool.false_eq_true, if_false, pure, brief_report, List.append_assoc]

/-- The extended call appends the expected extended report. -/
theorem print_build_info_extended (cfg : Flags) (out : Str) :
    print_build_info cfg true out = some (out ++ extended_report cfg) := by
  simp only [print_build_info, printf_header, printf_features, printf_xext,
    printf_newline, printf_plain _ _ _ no_percent_build_type,
    printf_plain _ _ _ no_percent_compiler, printf_plain _ _ _ no_percent_compiler_flags,
    printf_plain _ _ _ no_percent_linker_flags,
    Option.bind_eq_bind, Option.some_bind, if_true, extended_report, brief_report,
    build_env_text, List.append_assoc]

theorem print_build_info_eq (cfg : Flags) (extended : Bool) (out : Str) :
    print_build_info cfg extended out = some (out ++ report cfg extended) := by
  cases extended
  · exact print_build_info_brief cfg out
  · exact print_build_info_extended cfg out

/-! ## Lemmas on `lines` -/

/-- A newline-free run followed by a newline is the first line. -/
theorem lines_append_newline : ∀ (l rest : Str), '\n' ∉ l →
    lines (l ++ '\n' :: rest) = l :: lines rest
  | [], rest, _ => by simp [lines]
  | c :: l, rest, h => by
    have hc : c ≠ '\n' := fun e => h (by simp [e])
    have ih := lines_append_newline l rest (fun e => h (List.mem_cons_of_mem _ e))
    simp [lines, hc, ih]

theorem identity_line_no_newline : '\n' ∉ identity_line := by decide

theorem features_line_no_newline (cfg : Flags) : '\n' ∉ features_line cfg := by
  have h := fun b => (mark_ne_newline b).symm
  simp [features_line, WIRELESS_LIB, h]

theorem xext_line_no_newline (cfg : Flags) : '\n' ∉ xext_line cfg := by
  have h := fun b => (mark_ne_newline b).symm
  simp [xext_line, h]

set_option maxRecDepth 100000 in
theorem lines_build_env :
    lines build_env_text = [FMT_BUILD_TYPE.dropLast, FMT_COMPILER.dropLast,
      FMT_COMPILER_FLAGS.dropLast, FMT_LINKER_FLAGS.dropLast] := by
  decide

theorem lines_brief (cfg : Flags) :
    lines (brief_report cfg) = [identity_line, [], features_line cfg] := by
  have e : brief_report cfg
      = identity_line ++ '\n' :: ([] ++ '\n' :: (features_line cfg ++ '\n' :: [])) := by
    simp [brief_report]
  rw [e, lines_append_newline _ _ identity_line_no_newline,
    lines_append_newline _ _ (List.not_mem_nil _),
    lines_append_newline _ _ (features_line_no_newline cfg)]
  rfl

theorem lines_extended (cfg : Flags) :
    lines (extended_report cfg) = [identity_line, [], features_line cfg, [], xext_line cfg, [],
      FMT_BUILD_TYPE.dropLast, FMT_COMPILER.dropLast, FMT_COMPILER_FLAGS.dropLast,
      FMT_LINKER_FLAGS.dropLast] := by
  have e : extended_report cfg
      = identity_line ++ '\n' :: ([] ++ '\n' :: (features_line cfg ++ '\n' :: ([] ++ '\n' ::
          (xext_line cfg ++ '\n' :: ([] ++ '\n' :: build_env_text))))) := by
    simp [extended_report, brief_report]
  rw [e, lines_append_newline _ _ identity_line_no_newline,
    lines_append_newline _ _ (List.not_mem_nil _),
    lines_append_newline _ _ (features_line_no_newline cfg),
    lines_append_newline _ _ (List.not_mem_nil _),
    lines_append_newline _ _ (xext_line_no_newline cfg),
    lines_append_newline _ _ (List.not_mem_nil _), lines_build_env]

/-! ## Helper facts for the claims -/

theorem xext_line_infix_extended (cfg : Flags) : xext_line cfg <:+: extended_report cfg :=
  ⟨brief_report cfg ++ "\n".toList, "\n".toList ++ "\n".toList ++ build_env_text, by
    simp only [extended_report, List.append_assoc]⟩

theorem version_details_true_of_mem (args : List Str) (a : Str) (hm : a ∈ args)
    (hp : "-vv".toList <+: a) : version_details args = .ok true := by
  rw [version_details_eq, decide_eq_true ⟨a, hm, hp⟩]

theorem version_details_false_of_short (args : List Str)
    (h : ∀ a ∈ args, a.length < 3) : version_details args = .ok false := by
  rw [version_details_eq, decide_eq_false]
  rintro ⟨a, hm, hp⟩
  have h1 := hp.length_le
  have h2 := h a hm
  simp at h1
  omega

theorem features_line_suffix_brief (cfg : Flags) :
    (features_line cfg ++ "\n".toList) <:+ brief_report cfg :=
  ⟨identity_line ++ "\n\n".toList, by simp only [brief_report, List.append_assoc]⟩

theorem build_env_suffix_extended (cfg : Flags) : build_env_text <:+ extended_report cfg :=
  ⟨brief_report cfg ++ "\n".toList ++ xext_line cfg ++ "\n".toList ++ "\n".toList, rfl⟩

theorem ends_with_build_env_extended (cfg : Flags) :
    ends_with_build_env (extended_report cfg) = true := by
  unfold ends_with_build_env
  rw [lines_extended]
  rfl

theorem count_lines_extended (cfg : Flags) :
    count_lines_starting "Build type: ".toList (extended_report cfg) = 1 ∧
    count_lines_starting "Compiler: ".toList (extended_report cfg) = 1 ∧
    count_lines_starting "Compiler flags:  ".toList (extended_report cfg) = 1 ∧
    count_lines_starting "Linker flags:  ".toList (extended_report cfg) = 1 := by
  unfold count_lines_starting
  rw [lines_extended]
  exact ⟨rfl, rfl, rfl, rfl⟩

set_option maxRecDepth 100000 in
theorem build_env_single_newline :
    (FMT_BUILD_TYPE.count '\n' = 1 ∧ FMT_BUILD_TYPE.getLast? = some '\n') ∧
    (FMT_COMPILER.count '\n' = 1 ∧ FMT_COMPILER.getLast? = some '\n') ∧
    (FMT_COMPILER_FLAGS.count '\n' = 1 ∧ FMT_COMPILER_FLAGS.getLast? = some '\n') ∧
    (FMT_LINKER_FLAGS.count '\n' = 1 ∧ FMT_LINKER_FLAGS.getLast? = some '\n') := by
  decide

/-! ## The claims -/

/-- C1: `version_details(args)` returns `true` if and only if at least one
element of `args` begins with the three characters `-vv`.  The arguments `-vv`,
`-vvx` and `-vv=foo` match at any position of the list; `-v`, `--vv`, ` -vv`
and the empty string do not. -/
theorem version_details_iff_vv (args pre post : List Str) :
    version_details args = .ok (decide (∃ a ∈ args, "-vv".toList <+: a)) ∧
    (version_details args = .ok true ↔ ∃ a ∈ args, "-vv".toList <+: a) ∧
    (version_details args = .ok false ↔ ¬ ∃ a ∈ args, "-vv".toList <+: a) ∧
    version_details (pre ++ "-vv".toList :: post) = .ok true ∧
    version_details (pre ++ "-vvx".toList :: post) = .ok true ∧
    version_details (pre ++ "-vv=foo".toList :: post) = .ok true ∧
    version_details ["-v".toList, "--vv".toList, " -vv".toList, "".toList] = .ok false := by
  refine ⟨version_details_eq args, ?_, ?_, ?_, ?_, ?_, ?_⟩
  · rw [version_details_eq]
    constructor
    · intro h; injection h with h; exact of_decide_eq_true h
    · intro h; rw [decide_eq_true h]
  · rw [version_details_eq]
    constructor
    · intro h; injection h with h; exact of_decide_eq_false h
    · intro h; rw [decide_eq_false h]
  · exact version_details_true_of_mem _ _ (by simp) ⟨[], rfl⟩
  · exact version_details_true_of_mem _ _ (by simp) ⟨['x'], rfl⟩
  · exact version_details_true_of_mem _ _ (by simp) ⟨"=foo".toList, rfl⟩
  · rfl

/-- C7: `version_details` is order-independent: on a permutation of the argument
list it returns the same result. -/
theorem version_details_perm (args args' : List Str) (h : args'.Perm args) :
    version_details args' = version_details args := by
  rw [version_details_eq, version_details_eq]
  congr 1
  apply Bool.decide_congr
  constructor
  · rintro ⟨a, hm, hp⟩; exact ⟨a, h.mem_iff.mp hm, hp⟩
  · rintro ⟨a, hm, hp⟩; exact ⟨a, h.mem_iff.mpr hm, hp⟩

/-- Witness of C7: swapping `-vvx` from the last to the first position keeps the
result, which is `true`. -/
theorem version_details_perm_witness :
    List.Perm ["-vvx".toList, "--foo".toList] ["--foo".toList, "-vvx".toList] ∧
    version_details ["-vvx".toList, "--foo".toList]
      = version_details ["--foo".toList, "-vvx".toList] ∧
    version_details ["--foo".toList, "-vvx".toList] = .ok true :=
  ⟨List.Perm.swap _ _ _, version_details_perm _ _ (List.Perm.swap _ _ _), rfl⟩

/-- C8: `version_details` is total: on every list of strings it returns a
boolean and never throws.  The call `arg.compare(0, 3, "-vv")` never takes its
`out_of_range` branch; a string shorter than three characters is never a
match; and `version_details([])` is `false`. -/
theorem version_details_total (args : List Str) (s : Str) :
    (∃ b, version_details args = .ok b) ∧
    (∃ r, string_compare s 0 3 "-vv".toList = .ok r) ∧
    string_compare s 0 3 "-vv".toList ≠ .error .out_of_range ∧
    (s.length < 3 → string_compare s 0 3 "-vv".toList ≠ .ok 0) ∧
    ((∀ a ∈ args, a.length < 3) → version_details args = .ok false) ∧
    version_details [] = .ok false ∧
    version_details ["".toList] = .ok false := by
  refine ⟨⟨_, version_details_eq args⟩, string_compare_zero_ok s 3 _, ?_, ?_,
    version_details_false_of_short args, rfl, rfl⟩
  · obtain ⟨r, hr⟩ := string_compare_zero_ok s 3 "-vv".toList
    rw [hr]; intro h; cases h
  · intro hlt h0
    have hp := ((compare_vv_eq_zero_iff s).mp h0).length_le
    simp at hp
    omega

/-- Witness of C8: the list `["", "-v"]` of short strings and the short string
`-v`. -/
theorem version_details_total_witness :
    (∃ b, version_details ["".toList, "-v".toList] = .ok b) ∧
    string_compare "-v".toList 0 3 "-vv".toList ≠ .ok 0 ∧
    version_details ["".toList, "-v".toList] = .ok false :=
  have h := version_details_total ["".toList, "-v".toList] "-v".toList
  ⟨h.1, h.2.2.2.1 (by decide), h.2.2.2.2.1 (by decide)⟩

/-- C2: for every value of the seven primary flags `print_build_info(false)`
writes exactly `<APP_NAME> <APP_VERSION>`, a blank line and the Features line
`<m>alsa <m>curl <m>i3 <m>mpd <m>network(<WIRELESS_LIB>) <m>pulseaudio
<m>xkeyboard`, each marker `+` or `-` by its own flag, the backend name in the
parentheses whatever the network flag.  With alsa and network enabled and curl
disabled, the first line is `polybar 3.7.2-33-ga5dfcfb6-dev` and the Features
line contains `+alsa -curl` and `+network(wireless-tools)`. -/
theorem print_build_info_brief_text (cfg : Flags) (out : Str) :
    print_build_info cfg false out = some (out ++
      (APP_NAME ++ " ".toList ++ APP_VERSION ++ "\n\nFeatures: ".toList
        ++ mark cfg.ENABLE_ALSA :: "alsa ".toList
        ++ mark cfg.ENABLE_CURL :: "curl ".toList
        ++ mark cfg.ENABLE_I3 :: "i3 ".toList
        ++ mark cfg.ENABLE_MPD :: "mpd ".toList
        ++ mark cfg.ENABLE_NETWORK :: "network(".toList ++ WIRELESS_LIB ++ ") ".toList
        ++ mark cfg.ENABLE_PULSEAUDIO :: "pulseaudio ".toList
        ++ mark cfg.ENABLE_XKEYBOARD :: "xkeyboard\n".toList)) ∧
    (mark true = '+' ∧ mark false = '-') ∧
    (APP_NAME = "polybar".toList ∧ APP_VERSION = "3.7.2-33-ga5dfcfb6-dev".toList ∧
      WIRELESS_LIB = "wireless-tools".toList) ∧
    ∃ t l,
      print_build_info
        { cfg with ENABLE_ALSA := true, ENABLE_CURL := false, ENABLE_NETWORK := true }
        false [] = some t ∧
      lines t = ["polybar 3.7.2-33-ga5dfcfb6-dev".toList, [], l] ∧
      "Features: ".toList <+: l ∧
      "+alsa -curl".toList <:+: l ∧
      "+network(wireless-tools)".toList <:+: l := by
  refine ⟨?_, ⟨rfl, rfl⟩, ⟨rfl, rfl, rfl⟩, ?_⟩
  · rw [print_build_info_brief]; rfl
  · refine ⟨_, features_line
        { cfg with ENABLE_ALSA := true, ENABLE_CURL := false, ENABLE_NETWORK := true },
      print_build_info_brief _ [], ?_, ?_, ?_, ?_⟩
    · rw [List.nil_append, lines_brief]; rfl
    · exact ⟨_, rfl⟩
    · exact ⟨"Features: ".toList,
        " ".toList ++ mark cfg.ENABLE_I3 :: "i3 ".toList
          ++ mark cfg.ENABLE_MPD :: "mpd +network(wireless-tools) ".toList
          ++ mark cfg.ENABLE_PULSEAUDIO :: "pulseaudio ".toList
          ++ mark cfg.ENABLE_XKEYBOARD :: "xkeyboard".toList, rfl⟩
    · exact ⟨"Features: +alsa -curl ".toList ++ mark cfg.ENABLE_I3 :: "i3 ".toList
          ++ mark cfg.ENABLE_MPD :: "mpd ".toList,
        " ".toList ++ mark cfg.ENABLE_PULSEAUDIO :: "pulseaudio ".toList
          ++ mark cfg.ENABLE_XKEYBOARD :: "xkeyboard".toList, rfl⟩

/-- C3: for every value of all thirteen flags the text written by
`print_build_info(true)` is the text written by `print_build_info(false)`,
then one blank line, then the line `X extensions: <m>randr (<m>monitors)
<m>composite <m>xkb <m>xrm <m>xcursor`, each marker by its own flag, then the
rest of the extended report (a blank line and the four build-environment
lines).  With randr disabled and randr-monitors enabled the output contains
`-randr (+monitors)`. -/
theorem print_build_info_extended_text (cfg : Flags) (out : Str) :
    (∃ brief,
      print_build_info cfg false out = some (out ++ brief) ∧
      print_build_info cfg true out = some (out ++ (brief ++ "\n".toList
        ++ ("X extensions: ".toList
            ++ mark cfg.WITH_XRANDR :: "randr (".toList
            ++ mark cfg.WITH_XRANDR_MONITORS :: "monitors) ".toList
            ++ mark cfg.WITH_XCOMPOSITE :: "composite ".toList
            ++ mark cfg.WITH_XKB :: "xkb ".toList
            ++ mark cfg.WITH_XRM :: "xrm ".toList
            ++ mark cfg.WITH_XCURSOR :: "xcursor\n".toList)
        ++ ("\n".toList ++ FMT_BUILD_TYPE ++ FMT_COMPILER ++ FMT_COMPILER_FLAGS
            ++ FMT_LINKER_FLAGS)))) ∧
    (∃ t l,
      print_build_info { cfg with WITH_XRANDR := false, WITH_XRANDR_MONITORS := true }
        true [] = some t ∧
      (lines t)[4]? = some l ∧
      "X extensions: ".toList <+: l ∧
      "-randr (+monitors)".toList <:+: l ∧
      "-randr (+monitors)".toList <:+: t) := by
  refine ⟨⟨brief_report cfg, print_build_info_brief cfg out, ?_⟩, ?_⟩
  · rw [print_build_info_extended]
    simp only [extended_report, build_env_text, List.append_assoc]
    rfl
  · have hl : "-randr (+monitors)".toList <:+:
        xext_line { cfg with WITH_XRANDR := false, WITH_XRANDR_MONITORS := true } :=
      ⟨"X extensions: ".toList,
        " ".toList ++ mark cfg.WITH_XCOMPOSITE :: "composite ".toList
          ++ mark cfg.WITH_XKB :: "xkb ".toList
          ++ mark cfg.WITH_XRM :: "xrm ".toList
          ++ mark cfg.WITH_XCURSOR :: "xcursor".toList, rfl⟩
    refine ⟨_, xext_line { cfg with WITH_XRANDR := false, WITH_XRANDR_MONITORS := true },
      print_build_info_extended _ [], ?_, ⟨_, rfl⟩, hl, ?_⟩
    · rw [List.nil_append, lines_extended]; rfl
    · rw [List.nil_append]
      exact hl.trans (xext_line_infix_extended _)

/-- C4: end to end, `print_build_info(version_details(args))` writes the
extended report if some argument begins with `-vv` and the brief report
otherwise.  For `args = []` the output ends with the Features line; for
`args = ["-vv"]` and `args = ["--foo", "-vvextra"]` it ends with the four lines
that begin `Build type: `, `Compiler: `, `Compiler flags:  ` and
`Linker flags:  `, in this order, each occurring exactly once. -/
theorem report_mode_end_to_end (cfg : Flags) (args : List Str) (out : Str) :
    (∃ ext, version_details args = .ok ext ∧
      ext = decide (∃ a ∈ args, "-vv".toList <+: a) ∧
      print_build_info cfg ext out = some (out ++
        if (∃ a ∈ args, "-vv".toList <+: a) then extended_report cfg
        else brief_report cfg)) ∧
    (∃ ext t, version_details [] = .ok ext ∧ print_build_info cfg ext [] = some t ∧
      t = brief_report cfg ∧ (features_line cfg ++ "\n".toList) <:+ t) ∧
    (∃ ext t, version_details ["-vv".toList] = .ok ext ∧
      print_build_info cfg ext [] = some t ∧
      t = extended_report cfg ∧ build_env_text <:+ t ∧ ends_with_build_env t = true ∧
      count_lines_starting "Build type: ".toList t = 1 ∧
      count_lines_starting "Compiler: ".toList t = 1 ∧
      count_lines_starting "Compiler flags:  ".toList t = 1 ∧
      count_lines_starting "Linker flags:  ".toList t = 1) ∧
    (∃ ext t, version_details ["--foo".toList, "-vvextra".toList] = .ok ext ∧
      print_build_info cfg ext [] = some t ∧
      t = extended_report cfg ∧ build_env_text <:+ t ∧ ends_with_build_env t = true ∧
      count_lines_starting "Build type: ".toList t = 1 ∧
      count_lines_starting "Compiler: ".toList t = 1 ∧
      count_lines_starting "Compiler flags:  ".toList t = 1 ∧
      count_lines_starting "Linker flags:  ".toList t = 1) := by
  refine ⟨⟨_, version_details_eq args, rfl, ?_⟩, ?_, ?_, ?_⟩
  · by_cases h : ∃ a ∈ args, "-vv".toList <+: a
    · rw [decide_eq_true h, if_pos h]; exact print_build_info_extended cfg out
    · rw [decide_eq_false h, if_neg h]; exact print_build_info_brief cfg out
  · exact ⟨false, _, rfl, print_build_info_brief cfg [], rfl, features_line_suffix_brief cfg⟩
  · exact ⟨true, _, rfl, print_build_info_extended cfg [], rfl, build_env_suffix_extended cfg,
      ends_with_build_env_extended cfg, count_lines_extended cfg⟩
  · exact ⟨true, _, rfl, print_build_info_extended cfg [], rfl, build_env_suffix_extended cfg,
      ends_with_build_env_extended cfg, count_lines_extended cfg⟩

/-- C5, as the code has it: in extended mode, after the X extensions line and
one blank line, `print_build_info(true)` writes exactly four more lines (build
type, compiler, compiler flags, linker flags) and nothing after them. -/
theorem extended_tail_four_lines (cfg : Flags) :
    ∃ t, print_build_info cfg true [] = some t ∧
      (lines t)[4]? = some (xext_line cfg) ∧ "X extensions: ".toList <+: xext_line cfg ∧
      (lines t)[5]? = some [] ∧
      (lines t).drop 6 = ["Build type: Debug".toList,
        "Compiler: /usr/local/libexec/ccache/clang++".toList,
        FMT_COMPILER_FLAGS.dropLast, FMT_LINKER_FLAGS.dropLast] ∧
      "Compiler flags:  ".toList <+: FMT_COMPILER_FLAGS.dropLast ∧
      "Linker flags:  ".toList <+: FMT_LINKER_FLAGS.dropLast ∧
      ((lines t).drop 6).length = 4 ∧
      build_env_text <:+ t := by
  refine ⟨_, print_build_info_extended cfg [], ?_, ⟨_, rfl⟩, ?_, ?_, ⟨_, rfl⟩, ⟨_, rfl⟩, ?_,
    build_env_suffix_extended cfg⟩
  all_goals rw [List.nil_append, lines_extended]
  all_goals rfl

/-- Counterexample to C5 as stated: for the sample registry the sixth line of
the extended output is the blank line after the X extensions line, and four
lines follow it, not three. -/
theorem extended_tail_not_three_lines :
    ∃ t, print_build_info cfg_sample true [] = some t ∧
      (lines t)[4]? =
        some "X extensions: -randr (+monitors) +composite +xkb -xrm +xcursor".toList ∧
      (lines t)[5]? = some [] ∧
      ((lines t).drop 6).length = 4 ∧
      ¬ ((lines t).drop 6).length = 3 := by
  refine ⟨_, print_build_info_extended cfg_sample [], ?_, ?_, ?_, ?_⟩
  all_goals rw [List.nil_append, lines_extended]
  · rfl
  · rfl
  · rfl
  · decide

/-- C6, as the code has it: the backend name is rendered whether or not the
network flag is enabled: for every registry and either verbosity the Features
line contains `<m>network(wireless-tools)`, `<m>` being the network flag's own
marker. -/
theorem backend_rendered_always (cfg : Flags) (extended : Bool) :
    ∃ t l, print_build_info cfg extended [] = some t ∧
      (lines t)[2]? = some l ∧ "Features: ".toList <+: l ∧
      (mark cfg.ENABLE_NETWORK :: "network(wireless-tools)".toList) <:+: l ∧
      WIRELESS_LIB <:+: l := by
  have h1 : (mark cfg.ENABLE_NETWORK :: "network(wireless-tools)".toList)
      <:+: features_line cfg :=
    ⟨"Features: ".toList ++ mark cfg.ENABLE_ALSA :: "alsa ".toList
        ++ mark cfg.ENABLE_CURL :: "curl ".toList
        ++ mark cfg.ENABLE_I3 :: "i3 ".toList
        ++ mark cfg.ENABLE_MPD :: "mpd ".toList,
      " ".toList ++ mark cfg.ENABLE_PULSEAUDIO :: "pulseaudio ".toList
        ++ mark cfg.ENABLE_XKEYBOARD :: "xkeyboard".toList, rfl⟩
  have h2 : WIRELESS_LIB <:+: (mark cfg.ENABLE_NETWORK :: "network(wireless-tools)".toList) :=
    ⟨mark cfg.ENABLE_NETWORK :: "network(".toList, ")".toList, rfl⟩
  refine ⟨_, features_line cfg, print_build_info_eq cfg extended [], ?_, ⟨_, rfl⟩, h1,
    h2.trans h1⟩
  cases extended
  · rw [List.nil_append]; unfold report; rw [if_neg (by decide), lines_brief]; rfl
  · rw [List.nil_append]; unfold report; rw [if_pos rfl, lines_extended]; rfl

/-- Counterexample to C6 as stated: in the sample registry the network flag is
disabled and the Features line still contains the backend name. -/
theorem backend_rendered_when_network_disabled :
    cfg_sample.ENABLE_NETWORK = false ∧
    ∃ t l, print_build_info cfg_sample false [] = some t ∧
      (lines t)[2]? = some l ∧
      l = "Features: +alsa -curl +i3 +mpd -network(wireless-tools) -pulseaudio +xkeyboard".toList ∧
      WIRELESS_LIB <:+: l := by
  refine ⟨rfl, _, _, print_build_info_brief cfg_sample [], ?_, rfl, ?_⟩
  · rw [List.nil_append, lines_brief]; rfl
  · exact ⟨"Features: +alsa -curl +i3 +mpd -network(".toList,
      ") -pulseaudio +xkeyboard".toList, rfl⟩

/-- C9: with standard output as an explicit character sequence, the text that
`print_build_info(extended)` appends depends only on the registry and on
`extended`, not on the prior output; two consecutive calls append the same text
twice. -/
theorem print_build_info_deterministic (cfg : Flags) (extended : Bool) :
    ∃ t : Str, ∀ out : Str,
      print_build_info cfg extended out = some (out ++ t) ∧
      (print_build_info cfg extended out).bind (print_build_info cfg extended)
        = some (out ++ t ++ t) := by
  refine ⟨report cfg extended, fun out => ⟨print_build_info_eq cfg extended out, ?_⟩⟩
  rw [print_build_info_eq, Option.some_bind, print_build_info_eq]

/-- C10: none of the four build-environment format strings contains `%`; the
call `printf(fmt)` without arguments is defined, converts nothing and appends
the string as it stands; each string has exactly one newline, its last
character; and these four strings, in this order, end the extended output. -/
theorem build_env_formats_verbatim (cfg : Flags) :
    written_verbatim FMT_BUILD_TYPE ∧ written_verbatim FMT_COMPILER ∧
    written_verbatim FMT_COMPILER_FLAGS ∧ written_verbatim FMT_LINKER_FLAGS ∧
    ∃ t, print_build_info cfg true [] = some t ∧
      (FMT_BUILD_TYPE ++ FMT_COMPILER ++ FMT_COMPILER_FLAGS ++ FMT_LINKER_FLAGS) <:+ t :=
  have h := build_env_single_newline
  ⟨⟨no_percent_build_type, fun _ out => printf_plain _ _ out no_percent_build_type,
     fun out => printf_plain _ _ out no_percent_build_type, h.1⟩,
   ⟨no_percent_compiler, fun _ out => printf_plain _ _ out no_percent_compiler,
     fun out => printf_plain _ _ out no_percent_compiler, h.2.1⟩,
   ⟨no_percent_compiler_flags, fun _ out => printf_plain _ _ out no_percent_compiler_flags,
     fun out => printf_plain _ _ out no_percent_compiler_flags, h.2.2.1⟩,
   ⟨no_percent_linker_flags, fun _ out => printf_plain _ _ out no_percent_linker_flags,
     fun out => printf_plain _ _ out no_percent_linker_flags, h.2.2.2⟩,
   ⟨_, print_build_info_extended cfg [], build_env_suffix_extended cfg⟩⟩

end Settings
